import Mathlib

/-!
Verification development for the `testbench` crate: a shallow embedding of
`src/race_cell.rs` (the race-detecting `RaceCell` container), `src/lib.rs`
(the concurrent test harness, the benchmark loop and the contention runner)
and `src/noinline.rs` (inlining barriers), together with theorems settling
the specification's claims about them.

The embedding is serialized: atomic slots are modelled as plain values,
because every claim treated here speaks about race-free (externally
serialized) executions, where relaxed atomic loads and stores behave as
plain reads and writes.  Where a claim is about the *sequence of atomic
operations* a method performs (rather than its state effect), the method is
additionally embedded as a trace of atomic operations, and the trace is
linked to the state semantics by an interpreter.
-/

/-- Memory orderings of `std::sync::atomic::Ordering`.  The race cell only
ever uses `Relaxed`. -/
inductive MemOrdering
  | Relaxed
  | Acquire
  | Release
  | AcqRel
  | SeqCst
deriving DecidableEq

/-- The two storage slots of a `RaceCell`: `local_contents` (kept inline in
the struct) and `remote_version` (kept behind a `Box`). -/
inductive Slot
  | localContents
  | remoteVersion
deriving DecidableEq

/-- One atomic operation on a `RaceCell`'s slots, as issued by its methods:
a store of a value into a slot, a load from a slot, or a memory fence, each
with its memory ordering. -/
inductive AtomicOp (U : Type)
  | store (slot : Slot) (v : U) (ord : MemOrdering)
  | load (slot : Slot) (ord : MemOrdering)
  | fence (ord : MemOrdering)
deriving DecidableEq

/-- Whether an atomic operation is a store with `Relaxed` ordering. -/
def isRelaxedStore {U : Type} : AtomicOp U → Bool
  | .store _ _ .Relaxed => true
  | _ => false

/-- Whether an atomic operation is a memory fence or barrier. -/
def isFence {U : Type} : AtomicOp U → Bool
  | .fence _ => true
  | _ => false

/-- The slot an atomic operation touches, if any. -/
def slotOf {U : Type} : AtomicOp U → Option Slot
  | .store s _ _ => some s
  | .load s _ => some s
  | .fence _ => none

/-- `RaceCell<T, U>` from `src/race_cell.rs`: two independently allocated
copies of a value of type `U`, one held inline (`local_contents`) and one
behind a `Box` (`remote_version`).  In the serialized embedding each
atomic slot is just the value it holds. -/
structure RaceCell (U : Type) where
  local_contents : U
  remote_version : U
deriving DecidableEq

/-- `Racey<U>` from `src/race_cell.rs`: the result of a `RaceCell` read,
either `Consistent` carrying the copied content, or `Inconsistent` when a
data race was detected. -/
inductive Racey (U : Type)
  | Consistent (v : U)
  | Inconsistent
deriving DecidableEq

/-- `RaceCell::new(value)`: both slots are constructed with copies of the
same initial value (`T::new(value.clone())` and `Box::new(T::new(value))`). -/
def RaceCell.new {U : Type} (value : U) : RaceCell U :=
  { local_contents := value, remote_version := value }

/-- `RaceCell::set(value)`: state effect of the two relaxed stores
`local_contents.relaxed_store(value.clone())` then
`remote_version.relaxed_store(value)`, executed without interleaving. -/
def RaceCell.set {U : Type} (_c : RaceCell U) (value : U) : RaceCell U :=
  { local_contents := value, remote_version := value }

/-- `RaceCell::set(value)` as the trace of atomic operations it issues, in
program order: a relaxed store to `local_contents`, then a relaxed store to
`remote_version`, and nothing else (in particular no fence). -/
def RaceCell.setTrace {U : Type} (value : U) : List (AtomicOp U) :=
  [AtomicOp.store Slot.localContents value MemOrdering.Relaxed,
   AtomicOp.store Slot.remoteVersion value MemOrdering.Relaxed]

/-- `RaceCell::get()`: load `local_contents`, load `remote_version` (both
relaxed), and compare; equal values yield `Consistent(local_data)`, unequal
values yield `Inconsistent`. -/
def RaceCell.get {U : Type} [DecidableEq U] (c : RaceCell U) : Racey U :=
  let local_data := c.local_contents
  let remote_data := c.remote_version
  if local_data = remote_data then Racey.Consistent local_data
  else Racey.Inconsistent

/-- `RaceCell::get()` as the trace of atomic operations it issues, in
program order: a relaxed load of `local_contents` then a relaxed load of
`remote_version`. -/
def RaceCell.getTrace (U : Type) : List (AtomicOp U) :=
  [AtomicOp.load Slot.localContents MemOrdering.Relaxed,
   AtomicOp.load Slot.remoteVersion MemOrdering.Relaxed]

/-- `<RaceCell as Clone>::clone()`: load each slot of the original (two
independent relaxed loads) and construct a fresh pair from the two values
read. -/
def RaceCell.clone {U : Type} (c : RaceCell U) : RaceCell U :=
  let local_copy := c.local_contents
  let remote_copy := c.remote_version
  { local_contents := local_copy, remote_version := remote_copy }

/-- State effect of one atomic operation on a cell: a store overwrites its
slot, a load or fence leaves the cell unchanged. -/
def applyAtomicOp {U : Type} (c : RaceCell U) : AtomicOp U → RaceCell U
  | .store .localContents v _ => { c with local_contents := v }
  | .store .remoteVersion v _ => { c with remote_version := v }
  | .load _ _ => c
  | .fence _ => c

/-- Along any serialized sequence of `set` calls starting from a cell whose
slots agree, the slots keep agreeing. -/
theorem raceCell_foldl_set_consistent {U : Type} (c : RaceCell U)
    (h : c.local_contents = c.remote_version) (ops : List U) :
    (ops.foldl RaceCell.set c).local_contents
      = (ops.foldl RaceCell.set c).remote_version := by
  induction ops generalizing c with
  | nil => exact h
  | cons a t ih => exact ih _ rfl

/-- C1.  Race-free consistency invariant: the predicate
`local_contents = remote_version` holds after `RaceCell::new(v)`, is
preserved by every serialized call to `set`, and whenever it holds `get()`
returns `Consistent` of the stored value; hence along any serialized
sequence of `set` calls starting from `new v`, `get()` never returns
`Inconsistent`. -/
theorem raceCell_race_free_invariant {U : Type} [DecidableEq U] (v w : U)
    (c : RaceCell U) (h : c.local_contents = c.remote_version) :
    (RaceCell.new v).local_contents = (RaceCell.new v).remote_version
    ∧ (c.set w).local_contents = (c.set w).remote_version
    ∧ c.get = Racey.Consistent c.local_contents
    ∧ ∀ ops : List U,
        (ops.foldl RaceCell.set (RaceCell.new v)).get ≠ Racey.Inconsistent := by
  refine ⟨rfl, rfl, ?_, ?_⟩
  · simp [RaceCell.get, h]
  · intro ops
    have hc := raceCell_foldl_set_consistent (RaceCell.new v) rfl ops
    simp [RaceCell.get, hc]

/-- Witness for C1 at concrete inputs: `U = Nat`, initial value 1, written
value 2, and the (consistent) cell with both slots 5. -/
theorem raceCell_race_free_invariant_witness :
    (RaceCell.new 1 : RaceCell Nat).local_contents
      = (RaceCell.new 1 : RaceCell Nat).remote_version
    ∧ ((⟨5, 5⟩ : RaceCell Nat).set 2).local_contents
      = ((⟨5, 5⟩ : RaceCell Nat).set 2).remote_version
    ∧ (⟨5, 5⟩ : RaceCell Nat).get = Racey.Consistent 5
    ∧ ∀ ops : List Nat,
        (ops.foldl RaceCell.set (RaceCell.new 1)).get ≠ Racey.Inconsistent :=
  raceCell_race_free_invariant 1 2 ⟨5, 5⟩ rfl

/-- C2.  Freshness: for every value `v`, reading a freshly constructed
`RaceCell::new(v)` with no intervening writer returns `Consistent(v)`. -/
theorem raceCell_new_get_fresh {U : Type} [DecidableEq U] (v : U) :
    (RaceCell.new v).get = Racey.Consistent v := by
  simp [RaceCell.new, RaceCell.get]

/-- C6.  Write order of `set`: the trace of `set(v)` consists of exactly two
relaxed atomic stores, first into `local_contents` and then into
`remote_version`, with no fence anywhere in the trace; interpreting the
trace over any starting cell yields the state effect of `set`, after which
both slots hold `v`. -/
theorem raceCell_set_two_relaxed_stores {U : Type} (c : RaceCell U) (v : U) :
    (RaceCell.setTrace v).length = 2
    ∧ (RaceCell.setTrace v).all isRelaxedStore = true
    ∧ (RaceCell.setTrace v).map slotOf
        = [some Slot.localContents, some Slot.remoteVersion]
    ∧ (RaceCell.setTrace v).all (fun op => !isFence op) = true
    ∧ (RaceCell.setTrace v).foldl applyAtomicOp c = c.set v
    ∧ (c.set v).local_contents = v
    ∧ (c.set v).remote_version = v := by
  refine ⟨rfl, rfl, rfl, rfl, rfl, rfl, rfl⟩

/-- C7.  Clone round trip: with no concurrent writer,
`RaceCell::new(x).clone().get()` returns `Consistent(x)`. -/
theorem raceCell_clone_round_trip {U : Type} [DecidableEq U] (x : U) :
    ((RaceCell.new x).clone).get = Racey.Consistent x := by
  simp [RaceCell.new, RaceCell.clone, RaceCell.get]

/-- C9.  Clone is slot-exact: with no concurrent writer, cloning a cell
whose `local_contents` holds `a` and whose `remote_version` holds `b`
yields a new cell holding exactly `a` and `b` in the corresponding slots;
in particular, when `a ≠ b`, the clone of the inconsistent cell reads as
`Inconsistent`. -/
theorem raceCell_clone_slot_exact {U : Type} [DecidableEq U] (a b : U)
    (h : a ≠ b) :
    (∀ x y : U, (RaceCell.mk x y).clone = RaceCell.mk x y)
    ∧ (RaceCell.mk a b).clone.local_contents = a
    ∧ (RaceCell.mk a b).clone.remote_version = b
    ∧ (RaceCell.mk a b).clone.get = Racey.Inconsistent := by
  refine ⟨fun x y => rfl, rfl, rfl, ?_⟩
  simp [RaceCell.clone, RaceCell.get, h]

/-- Witness for C9 at the concrete inputs of the crate's `tests::clone`
test: slots `0xdeaf = 57007` and `0xbeef = 48879`. -/
theorem raceCell_clone_slot_exact_witness :
    (∀ x y : Nat, (RaceCell.mk x y).clone = RaceCell.mk x y)
    ∧ (RaceCell.mk 57007 48879).clone.local_contents = 57007
    ∧ (RaceCell.mk 57007 48879).clone.remote_version = 48879
    ∧ (RaceCell.mk 57007 48879 : RaceCell Nat).clone.get = Racey.Inconsistent :=
  raceCell_clone_slot_exact 57007 48879 (by decide)

/-- Result of one invocation of a harness function (`concurrent_test_2` or
`concurrent_test_3`), as observed by its caller: whether the call itself
ends by panicking (a participant failure surfacing), and, per spawned
background thread in spawn order, whether the caller joined that thread
before the call ended.  A thread whose `JoinHandle` is dropped during
unwinding is detached, not joined. -/
structure HarnessRun where
  callerPanics : Bool
  joinedThreads : List Bool
deriving DecidableEq

/-- `concurrent_test_2(f1, f2)` from `src/lib.rs`, with each participant
abstracted by whether it panics.  The caller runs `f2()` after its barrier
wait; if `f2` panics, unwinding drops `thread1`'s handle without joining
it.  Otherwise the caller runs `thread1.join().unwrap()`: the join always
completes (the thread is accounted for), and `unwrap` re-raises `f1`'s
panic if there was one. -/
def concurrent_test_2 (f1Panics f2Panics : Bool) : HarnessRun :=
  if f2Panics then { callerPanics := true, joinedThreads := [false] }
  else { callerPanics := f1Panics, joinedThreads := [true] }

/-- `concurrent_test_3(f1, f2, f3)` from `src/lib.rs`.  The caller runs
`f3()` after its barrier wait; a panic there drops both join handles
unjoined.  Otherwise it runs `thread1.join().unwrap()` then
`thread2.join().unwrap()`: if `f1` panicked, the first `unwrap` panics
after joining `thread1`, and `thread2`'s handle is dropped unjoined; if
only `f2` panicked, both threads are joined and the second `unwrap`
re-raises the panic. -/
def concurrent_test_3 (f1Panics f2Panics f3Panics : Bool) : HarnessRun :=
  if f3Panics then { callerPanics := true, joinedThreads := [false, false] }
  else if f1Panics then { callerPanics := true, joinedThreads := [true, false] }
  else { callerPanics := f2Panics, joinedThreads := [true, true] }

/-- C3 counterexample.  In `concurrent_test_3`, when the first spawned
participant panics (and the other two run normally), the failure surfaces
to the caller, but the second spawned thread is never joined: the failure
does not surface "only after every spawned thread has been joined", and a
background thread is left unjoined on the error path. -/
theorem concurrent_test_3_leaks_thread_on_failure :
    (concurrent_test_3 true false false).callerPanics = true
    ∧ (concurrent_test_3 true false false).joinedThreads = [true, false]
    ∧ ((concurrent_test_3 true false false).joinedThreads.all id) = false
    ∧ ((concurrent_test_2 true true).joinedThreads.all id) = false := by
  refine ⟨rfl, rfl, rfl, rfl⟩

/-- C3 amended.  A participant failure always surfaces to the caller (it is
never silently swallowed), but joining is only as complete as the failure
point allows: when the caller-run function succeeds, `concurrent_test_2`
joins its single spawned thread, and `concurrent_test_3` joins `thread1`
always but joins `thread2` only when `f1` did not panic; when the
caller-run function itself panics, no spawned thread is joined. -/
theorem concurrent_test_failure_propagation (f1p f2p f3p : Bool) :
    ((f1p || f2p) = true → (concurrent_test_2 f1p f2p).callerPanics = true)
    ∧ ((f1p || f2p || f3p) = true
        → (concurrent_test_3 f1p f2p f3p).callerPanics = true)
    ∧ (concurrent_test_2 f1p false).joinedThreads = [true]
    ∧ (concurrent_test_3 f1p f2p false).joinedThreads = [true, !f1p]
    ∧ (concurrent_test_2 f1p true).joinedThreads = [false]
    ∧ (concurrent_test_3 f1p f2p true).joinedThreads = [false, false] := by
  cases f1p <;> cases f2p <;> cases f3p <;> decide

/-- One step in the program-order structure of a harness participant or of
the harness caller: spawning a background thread, waiting on the shared
rendezvous barrier, invoking an assigned function (directly, or through the
`noinline::call_once` inlining barrier), or joining a spawned thread.
Functions are numbered by their position in the harness signature, threads
by spawn order. -/
inductive HarnessAction
  | spawnThread (tid : Nat)
  | barrierWait
  | invokeDirect (fid : Nat)
  | invokeViaCallOnce (fid : Nat)
  | joinThread (tid : Nat)
deriving DecidableEq

/-- Whether a harness action invokes an assigned function (directly or
through the inlining barrier). -/
def isInvoke : HarnessAction → Bool
  | .invokeDirect _ => true
  | .invokeViaCallOnce _ => true
  | _ => false

/-- Whether a harness action invokes an assigned function through the
`noinline::call_once` inlining barrier. -/
def isCallOnceInvoke : HarnessAction → Bool
  | .invokeViaCallOnce _ => true
  | _ => false

/-- Body of the one background thread `concurrent_test_2` spawns, from
`src/lib.rs`: `barrier1.wait(); f1();` — a barrier wait, then a direct
call of `f1` (not routed through `noinline::call_once`). -/
def concurrent_test_2_spawned_bodies : List (List HarnessAction) :=
  [[HarnessAction.barrierWait, HarnessAction.invokeDirect 1]]

/-- Program order of the `concurrent_test_2` caller, from `src/lib.rs`:
spawn thread 1, wait on the barrier, call `f2()` directly, join thread 1. -/
def concurrent_test_2_caller_body : List HarnessAction :=
  [HarnessAction.spawnThread 1, HarnessAction.barrierWait,
   HarnessAction.invokeDirect 2, HarnessAction.joinThread 1]

/-- Bodies of the two background threads `concurrent_test_3` spawns, from
`src/lib.rs`: each waits on the barrier then calls its function directly. -/
def concurrent_test_3_spawned_bodies : List (List HarnessAction) :=
  [[HarnessAction.barrierWait, HarnessAction.invokeDirect 1],
   [HarnessAction.barrierWait, HarnessAction.invokeDirect 2]]

/-- Program order of the `concurrent_test_3` caller, from `src/lib.rs`:
spawn threads 1 and 2, wait on the barrier, call `f3()` directly, join
threads 1 and 2 in order. -/
def concurrent_test_3_caller_body : List HarnessAction :=
  [HarnessAction.spawnThread 1, HarnessAction.spawnThread 2,
   HarnessAction.barrierWait, HarnessAction.invokeDirect 3,
   HarnessAction.joinThread 1, HarnessAction.joinThread 2]

/-- `noinline::call_once(callable)` from `src/noinline.rs`: an
`#[inline(never)]` wrapper that invokes the callable exactly once and is
otherwise semantically transparent. -/
def call_once (callable : Unit → Unit) : Unit :=
  callable ()

/-- The launch-structure claim as stated: every spawned thread body first
waits on the barrier and then invokes its assigned function exactly once,
behind the `noinline::call_once` inlining-avoidance boundary. -/
def launchUsesInliningBoundary : Prop :=
  ∀ body ∈ concurrent_test_2_spawned_bodies ++ concurrent_test_3_spawned_bodies,
    body.head? = some HarnessAction.barrierWait
    ∧ body.countP isInvoke = 1
    ∧ body.countP isCallOnceInvoke = 1

/-- C4 counterexample.  The spawned thread of `concurrent_test_2` invokes
its function directly (`f1()`), not behind the `noinline::call_once`
boundary: its body contains no `call_once` invocation, so the claimed
launch structure is false. -/
theorem concurrent_test_launch_no_inlining_boundary :
    concurrent_test_2_spawned_bodies
      = [[HarnessAction.barrierWait, HarnessAction.invokeDirect 1]]
    ∧ (concurrent_test_2_spawned_bodies.all
        (fun body => body.any isCallOnceInvoke)) = false
    ∧ ¬ launchUsesInliningBoundary := by
  refine ⟨rfl, rfl, ?_⟩
  unfold launchUsesInliningBoundary
  decide

/-- C4 amended.  Launch structure as the code has it: `concurrent_test_2`
spawns 1 and `concurrent_test_3` spawns 2 background threads; each spawned
thread first waits on the shared barrier and then invokes its assigned
function exactly once, by a direct call rather than through the
`noinline::call_once` inlining barrier (which exists in the crate but is
not used by the harness); the caller likewise waits on the barrier and then
invokes the remaining function directly, exactly once.  `call_once` itself
just invokes its callable. -/
theorem concurrent_test_launch_structure :
    concurrent_test_2_spawned_bodies.length = 1
    ∧ concurrent_test_3_spawned_bodies.length = 2
    ∧ concurrent_test_2_spawned_bodies
        = [[HarnessAction.barrierWait, HarnessAction.invokeDirect 1]]
    ∧ concurrent_test_3_spawned_bodies
        = [[HarnessAction.barrierWait, HarnessAction.invokeDirect 1],
           [HarnessAction.barrierWait, HarnessAction.invokeDirect 2]]
    ∧ (∀ body ∈ concurrent_test_2_spawned_bodies
          ++ concurrent_test_3_spawned_bodies,
        body.head? = some HarnessAction.barrierWait
        ∧ body.countP isInvoke = 1
        ∧ body.countP isCallOnceInvoke = 0)
    ∧ concurrent_test_2_caller_body.countP isInvoke = 1
    ∧ concurrent_test_3_caller_body.countP isInvoke = 1
    ∧ concurrent_test_2_caller_body
        = [HarnessAction.spawnThread 1, HarnessAction.barrierWait,
           HarnessAction.invokeDirect 2, HarnessAction.joinThread 1]
    ∧ concurrent_test_3_caller_body
        = [HarnessAction.spawnThread 1, HarnessAction.spawnThread 2,
           HarnessAction.barrierWait, HarnessAction.invokeDirect 3,
           HarnessAction.joinThread 1, HarnessAction.joinThread 2]
    ∧ (∀ f : Unit → Unit, call_once f = f ()) := by
  refine ⟨rfl, rfl, rfl, rfl, by decide, rfl, rfl, rfl, rfl, fun f => rfl⟩

/-- `std::time::Duration`: a whole number of seconds plus a sub-second
nanosecond part (in the source, `secs` is a `u64` and `nanos` a `u32`
below `10^9`). -/
structure Duration where
  secs : Nat
  nanos : Nat
deriving DecidableEq

/-- Nanoseconds per second, `NANOS_PER_SEC` of `std::time`. -/
def NANOS_PER_SEC : Nat := 1000000000

/-- One more than the largest `u64`, the overflow bound of `Duration.secs`. -/
def U64_MOD : Nat := 18446744073709551616

/-- One more than the largest `u32`. -/
def U32_MOD : Nat := 4294967296

/-- `Duration * u32` (`Duration::checked_mul`): carry the scaled nanosecond
part into seconds; `none` models the overflow panic of the `Mul` operator
when the second count exceeds `u64`. -/
def Duration.mulScalar (d : Duration) (k : Nat) : Option Duration :=
  let total_nanos := d.nanos * k
  let secs := d.secs * k + total_nanos / NANOS_PER_SEC
  if secs < U64_MOD then some ⟨secs, total_nanos % NANOS_PER_SEC⟩ else none

/-- `Duration / u32` (`Duration::checked_div`): `none` models the
division-by-zero panic of the `Div` operator; otherwise the seconds are
divided, and the remainder carries into the nanosecond part as in the
standard library (`nanos / rhs + carry * NANOS_PER_SEC / rhs`). -/
def Duration.divScalar (d : Duration) (k : Nat) : Option Duration :=
  if k = 0 then none
  else some ⟨d.secs / k, d.nanos / k + d.secs % k * NANOS_PER_SEC / k⟩

/-- The figures `benchmark` prints: total milliseconds, the iteration
count, and the per-iteration nanoseconds with a two-digit fraction. -/
structure BenchReport where
  total_ms : Nat
  iters : Nat
  iter_ns : Nat
  iter_ns_fraction : Nat
deriving DecidableEq

/-- The timing arithmetic of `benchmark(num_iterations, _)` applied to the
measured total elapsed duration (wall-clock time is an input of the
embedding): `total_ms` from seconds and subsecond nanoseconds (u32
arithmetic, wrapping), then `hundred_iter_duration = total_duration * 100
/ num_iterations`, `iter_duration = hundred_iter_duration / 100`, the
assertion `iter_duration.as_secs() == 0`, and the printed figures.  `none`
models a panic: the division by zero when `num_iterations = 0`, the
multiplication overflow, or the assertion failing. -/
def benchmarkReport (num_iterations : Nat) (total_duration : Duration) :
    Option BenchReport :=
  let total_ms :=
    ((total_duration.secs % U32_MOD) * 1000
      + total_duration.nanos / 1000000) % U32_MOD
  match (total_duration.mulScalar 100).bind
      (fun d => d.divScalar num_iterations) with
  | none => none
  | some hundred_iter_duration =>
    match hundred_iter_duration.divScalar 100 with
    | none => none
    | some iter_duration =>
      if iter_duration.secs = 0 then
        some { total_ms := total_ms, iters := num_iterations,
               iter_ns := iter_duration.nanos,
               iter_ns_fraction := hundred_iter_duration.nanos % 100 }
      else none

/-- The `for _ in 0..num_iterations { iteration() }` loop of `benchmark`,
with the iteration body abstracted as a transformer of its captured
environment: the body runs exactly `num_iterations` times, in order. -/
def iterLoop {σ : Type} : Nat → (σ → σ) → σ → σ
  | 0, _, s => s
  | n + 1, f, s => iterLoop n f (f s)

/-- `benchmark(num_iterations, iteration)` from `src/lib.rs`: run the
iteration loop on the caller's environment, then compute and print the
timing report (or panic, modelled as `none`).  The elapsed duration
measured between `Instant::now()` and `start_time.elapsed()` is an
external input. -/
def benchmark {σ : Type} (num_iterations : Nat) (iteration : σ → σ) (s : σ)
    (total_duration : Duration) : σ × Option BenchReport :=
  (iterLoop num_iterations iteration s, benchmarkReport num_iterations total_duration)

/-- C10.  Zero-iteration benchmark panics: `benchmark(0, body)` leaves the
body's environment untouched (the body is never invoked, the loop runs zero
times) and produces no report for any elapsed duration, because
`total_duration * 100 / num_iterations` is a division by zero when
`num_iterations = 0` (and `Duration`'s `Div` panics there). -/
theorem benchmark_zero_iterations_panics {σ : Type} (iteration : σ → σ)
    (s : σ) (total_duration : Duration) :
    benchmark 0 iteration s total_duration = (s, none) := by
  have hrep : benchmarkReport 0 total_duration = none := by
    unfold benchmarkReport
    cases hm : total_duration.mulScalar 100 with
    | none => rfl
    | some d => simp [Duration.divScalar]
  simp [benchmark, iterLoop, hrep]

/-- One step in the program-order structure of `concurrent_benchmark`
(`src/lib.rs`), on the calling thread or on the antagonist thread. -/
inductive CBAction
  | spawnAntagonist
  | cbBarrierWait
  | sleepHeadstart
  | runMeasuredLoop
  | storeStopFlag
  | joinAntagonist
  | loadStopFlag
  | invokeAntagonist
deriving DecidableEq

/-- Whether a `concurrent_benchmark` action runs the measured benchmark
loop. -/
def isMeasuredRun : CBAction → Bool
  | .runMeasuredLoop => true
  | _ => false

/-- Program order of the `concurrent_benchmark` caller, from `src/lib.rs`:
spawn the antagonist thread, wait on the 2-party barrier, sleep 10 ms of
headstart, run `benchmark(num_iterations, iteration_func)` on the calling
thread, store `false` into the run flag, join the antagonist. -/
def concurrent_benchmark_caller_trace : List CBAction :=
  [CBAction.spawnAntagonist, CBAction.cbBarrierWait, CBAction.sleepHeadstart,
   CBAction.runMeasuredLoop, CBAction.storeStopFlag, CBAction.joinAntagonist]

/-- The antagonist thread's actions before its loop, from `src/lib.rs`: a
single barrier wait. -/
def antagonist_thread_prelude : List CBAction :=
  [CBAction.cbBarrierWait]

/-- One iteration of the antagonist thread's loop, from `src/lib.rs`: a
relaxed load of the run flag, then (while it reads true) one invocation of
`antagonist_func`. -/
def antagonist_loop_iteration : List CBAction :=
  [CBAction.loadStopFlag, CBAction.invokeAntagonist]

/-- `concurrent_benchmark(num_iterations, iteration_func, antagonist_func)`
from `src/lib.rs`, restricted to its effect on the measured side: after the
barrier wait and the headstart sleep, the calling thread runs
`benchmark(num_iterations, iteration_func)`; the antagonist's return values
are discarded and the function returns `()`, so the caller observes only
the environment `iteration_func` mutated and the printed report. -/
def concurrent_benchmark {σ : Type} (num_iterations : Nat)
    (iteration_func : σ → σ) (s : σ) (total_duration : Duration) :
    σ × Option BenchReport :=
  benchmark num_iterations iteration_func s total_duration

/-- How many times `concurrent_benchmark` invokes the measured callable:
its effect on a counter that the callable increments once per call. -/
def measuredInvocations (num_iterations : Nat) : Nat :=
  (concurrent_benchmark num_iterations (fun k => k + 1) 0 ⟨0, 0⟩).1

/-- The iteration loop applies an incrementing body exactly as many times
as it has iterations. -/
theorem iterLoop_add_one (n m : Nat) :
    iterLoop n (fun k => k + 1) m = m + n := by
  induction n generalizing m with
  | zero => rfl
  | succ k ih =>
    show iterLoop k (fun j => j + 1) (m + 1) = m + (k + 1)
    rw [ih]
    omega

/-- C5 counterexample.  With `num_iterations = 2`, `concurrent_benchmark`
invokes the measured callable twice, not exactly once: the measured
operation runs in a counted loop. -/
theorem concurrent_benchmark_invokes_measured_twice :
    measuredInvocations 2 = 2 ∧ ¬ measuredInvocations 2 = 1 := by
  refine ⟨rfl, by decide⟩

/-- C5 amended.  The measured side of the contention runner as the code has
it: the calling thread runs the benchmark loop (not the antagonist thread),
which invokes the measured callable `num_iterations` times in a counted
loop; the loop appears exactly once in the caller's program order and
nowhere in the antagonist's; `concurrent_benchmark` itself returns no
measured result beyond the callable's effect on its captured environment
(in Rust it returns `()` and prints the timing). -/
theorem concurrent_benchmark_measured_loop {σ : Type} (n : Nat)
    (it : σ → σ) (s : σ) (d : Duration) :
    (concurrent_benchmark n it s d).1 = iterLoop n it s
    ∧ measuredInvocations n = n
    ∧ concurrent_benchmark_caller_trace.countP isMeasuredRun = 1
    ∧ antagonist_thread_prelude.countP isMeasuredRun = 0
    ∧ antagonist_loop_iteration.countP isMeasuredRun = 0 := by
  refine ⟨rfl, ?_, by decide, by decide, by decide⟩
  show (concurrent_benchmark n (fun k => k + 1) 0 ⟨0, 0⟩).1 = n
  show iterLoop n (fun k => k + 1) 0 = n
  rw [iterLoop_add_one]
  exact Nat.zero_add n

/-- The value-type kinds in play for the `AtomicLoadStore` capability:
booleans, the fixed-width and pointer-sized signed and unsigned integers,
and raw pointers. -/
inductive ScalarKind
  | bool
  | i8
  | i16
  | i32
  | i64
  | isize
  | u8
  | u16
  | u32
  | u64
  | usize
  | ptr
deriving DecidableEq

/-- The value types for which `src/race_cell.rs` provides an
`AtomicLoadStore` implementation: the `impl_load_store!` macro instantiates
`bool/AtomicBool`, `isize/AtomicIsize` and `usize/AtomicUsize`, and a
separate impl covers `*mut V/AtomicPtr<V>`.  Nothing else is implemented. -/
def implementedAtomicLoadStore : List ScalarKind :=
  [ScalarKind.bool, ScalarKind.isize, ScalarKind.usize, ScalarKind.ptr]

/-- Modelled from the spec: the scalar kinds the spec promises the
capability for, reading "booleans, signed/unsigned integers of standard
fixed widths, and pointers" as the enumerated closed set below. -/
def specPromisedScalarKinds : List ScalarKind :=
  [ScalarKind.bool,
   ScalarKind.i8, ScalarKind.i16, ScalarKind.i32, ScalarKind.i64,
   ScalarKind.isize,
   ScalarKind.u8, ScalarKind.u16, ScalarKind.u32, ScalarKind.u64,
   ScalarKind.usize,
   ScalarKind.ptr]

/-- Whether `RaceCell<T, U>` can be instantiated at a given scalar kind:
the `T: AtomicLoadStore<U>` bound restricts instantiation to the kinds with
an implementation, and any other kind is rejected at compile time. -/
def raceCellInstantiable (k : ScalarKind) : Bool :=
  implementedAtomicLoadStore.contains k

/-- The capability claim as stated: every scalar kind the spec promises has
an `AtomicLoadStore` implementation. -/
def capabilitySetCoversPromise : Prop :=
  ∀ k ∈ specPromisedScalarKinds, k ∈ implementedAtomicLoadStore

/-- C8 counterexample.  `u32` is one of the fixed-width integer kinds the
spec promises, yet `src/race_cell.rs` implements `AtomicLoadStore` only for
`bool`, `isize`, `usize` and pointers, so the promised capability set is
not covered. -/
theorem atomic_capability_missing_fixed_width :
    ScalarKind.u32 ∈ specPromisedScalarKinds
    ∧ ScalarKind.u32 ∉ implementedAtomicLoadStore
    ∧ ¬ capabilitySetCoversPromise := by
  refine ⟨by decide, by decide, ?_⟩
  unfold capabilitySetCoversPromise
  decide

/-- C8 amended.  The implemented capability set is exactly the closed,
enumerated set `{bool, isize, usize, pointer}`; `RaceCell` is instantiable
precisely over that set (the trait bound is a compile-time restriction),
and in particular none of the fixed-width integer kinds `i8..i64` and
`u8..u64` is instantiable. -/
theorem atomic_capability_closed_set (k : ScalarKind) :
    implementedAtomicLoadStore
      = [ScalarKind.bool, ScalarKind.isize, ScalarKind.usize, ScalarKind.ptr]
    ∧ (raceCellInstantiable k = true ↔ k ∈ implementedAtomicLoadStore)
    ∧ raceCellInstantiable ScalarKind.i8 = false
    ∧ raceCellInstantiable ScalarKind.i16 = false
    ∧ raceCellInstantiable ScalarKind.i32 = false
    ∧ raceCellInstantiable ScalarKind.i64 = false
    ∧ raceCellInstantiable ScalarKind.u8 = false
    ∧ raceCellInstantiable ScalarKind.u16 = false
    ∧ raceCellInstantiable ScalarKind.u32 = false
    ∧ raceCellInstantiable ScalarKind.u64 = false := by
  refine ⟨rfl, ?_, rfl, rfl, rfl, rfl, rfl, rfl, rfl, rfl⟩
  cases k <;> decide
